import Mathlib

/-!
Verification of the capability/module composition system of the kasa
smart-home client library, shallowly embedded in Lean 4.

The embedding covers:
- `Energy` (kasa/interfaces/energy.py): feature initialization and the
  deprecated-attribute redirection in `__getattr__`;
- `Light` (kasa/iot/modules/light.py): cached light state, getters,
  `set_state` request construction, and `_post_update_hook`;
- `MotionSensor` (kasa/smart/modules/motionsensor.py);
- the device refresh-cycle driver and SMART-family module admission,
  modelled from the specification where the source excerpt does not
  contain them.

Python conventions are mapped as follows: fallible attribute access and
raising properties return `Option`/`Except`; methods that mutate `self`
become state transformers `State -> Result x State`; Python dicts become
association lists over `String` keys; `warnings.warn` invocations are
counted explicitly.
-/

namespace Kasa

/-- Abstract value of a Python attribute (opaque for routing purposes). -/
abbrev Val := Int

/-! ## Energy module (kasa/interfaces/energy.py) -/

/-- The defined attributes of an `Energy` module instance: one opaque
value per property/method declared on the class body. -/
structure EnergyState where
  status : Val
  current_consumption : Val
  consumption_today : Val
  consumption_this_month : Val
  consumption_total : Val
  current : Val
  voltage : Val
  has_voltage_current : Val
  has_total_consumption : Val
  get_status : Val
  has_periodic_stats : Val
  erase_stats : Val
  get_daystat : Val
  get_monthstat : Val
  deriving Repr, DecidableEq

namespace Energy

/-- Normal Python attribute lookup on an `Energy` instance: returns the
value of a name defined on the class, `none` when the name is undefined
(so that `__getattr__` is consulted). -/
def definedAttr (s : EnergyState) : String → Option Val
  | "status" => some s.status
  | "current_consumption" => some s.current_consumption
  | "consumption_today" => some s.consumption_today
  | "consumption_this_month" => some s.consumption_this_month
  | "consumption_total" => some s.consumption_total
  | "current" => some s.current
  | "voltage" => some s.voltage
  | "has_voltage_current" => some s.has_voltage_current
  | "has_total_consumption" => some s.has_total_consumption
  | "get_status" => some s.get_status
  | "has_periodic_stats" => some s.has_periodic_stats
  | "erase_stats" => some s.erase_stats
  | "get_daystat" => some s.get_daystat
  | "get_monthstat" => some s.get_monthstat
  | _ => none

/-- `Energy._deprecated_attributes`: mapping from retired names to the
current names, exactly as in the source. -/
def deprecated_attributes : List (String × String) :=
  [("emeter_today", "consumption_today"),
   ("emeter_this_month", "consumption_this_month"),
   ("realtime", "status"),
   ("get_realtime", "get_status"),
   ("erase_emeter_stats", "erase_stats")]

/-- Lookup in `_deprecated_attributes`. -/
def deprecatedLookup (n : String) : Option String :=
  (deprecated_attributes.find? (fun p => p.1 = n)).map Prod.snd

/-- Python attribute access on an `Energy` instance, fuel-bounded to
reflect that `__getattr__` calls `getattr(self, attr)` recursively.
Returns the resolved value (`none` models `AttributeError`) paired with
the number of `DeprecationWarning`s emitted during the access. -/
def getattrFuel (s : EnergyState) : Nat → String → Option Val × Nat
  | 0, _ => (none, 0)
  | fuel + 1, n =>
    match definedAttr s n with
    | some v => (some v, 0)
    | none =>
      match deprecatedLookup n with
      | some attr =>
        let r := getattrFuel s fuel attr
        (r.1, r.2 + 1)
      | none => (none, 0)

/-- `Energy.__getattr__` composed with normal lookup: every target of the
deprecated map is a defined attribute, so fuel 2 is exact. -/
def getattrE (s : EnergyState) (n : String) : Option Val × Nat :=
  getattrFuel s 2 n

/-- `Feature.Category` (kasa/feature.py). -/
inductive Category
  | Primary
  | Info
  | Config
  | Debug
  deriving Repr, DecidableEq

/-- The slice of a `Feature` (kasa/feature.py) relevant to registration:
its id, the getter name it binds, unit, precision hint and category. -/
structure Feature where
  id : String
  attribute_getter : String
  unit : Option String := none
  precision_hint : Option Nat := none
  category : Category := Category.Info
  deriving Repr, DecidableEq

/-- `Energy._initialize_features`: the features registered via
`_add_feature`, in order, as a function of the two capability flags the
source consults (`has_total_consumption`, `has_voltage_current`). -/
def initialize_features (has_total_consumption has_voltage_current : Bool) :
    List Feature :=
  [{ id := "current_consumption", attribute_getter := "current_consumption",
     unit := some "W", precision_hint := some 1, category := Category.Primary },
   { id := "consumption_today", attribute_getter := "consumption_today",
     unit := some "kWh", precision_hint := some 3, category := Category.Info },
   { id := "consumption_this_month", attribute_getter := "consumption_this_month",
     unit := some "kWh", precision_hint := some 3, category := Category.Info }]
  ++ (if has_total_consumption then
      [{ id := "consumption_total", attribute_getter := "consumption_total",
         unit := some "kWh", precision_hint := some 3, category := Category.Info }]
      else [])
  ++ (if has_voltage_current then
      [{ id := "voltage", attribute_getter := "voltage",
         unit := some "V", precision_hint := some 1, category := Category.Primary },
       { id := "current", attribute_getter := "current",
         unit := some "A", precision_hint := some 2, category := Category.Primary }]
      else [])

/-- Feature ids registered by `Energy._initialize_features`. -/
def featureIds (has_total_consumption has_voltage_current : Bool) : List String :=
  (initialize_features has_total_consumption has_voltage_current).map Feature.id

end Energy

/-! ## Light module (kasa/iot/modules/light.py) -/

/-- `DeviceType` (kasa/device_type.py), restricted to the variants the
light module distinguishes. -/
inductive DeviceType
  | Bulb
  | LightStrip
  | Dimmer
  | Plug
  | Switch
  deriving Repr, DecidableEq

/-- `HSV` (kasa/interfaces/light.py): hue, saturation, value. -/
structure HSV where
  hue : Nat
  saturation : Nat
  value : Nat
  deriving Repr, DecidableEq

/-- `LightState` dataclass (kasa/interfaces/light.py): every field is
optional; `none` models Python `None`. -/
structure LightState where
  light_on : Option Bool := none
  brightness : Option Nat := none
  hue : Option Nat := none
  saturation : Option Nat := none
  color_temp : Option Nat := none
  transition : Option Nat := none
  deriving Repr, DecidableEq

/-- The device instance a `Light` module is bound to (`self._device`):
its type, capability flags and the cached values the module's properties
read (`_brightness`, `_hsv`, `_color_temp`, `is_on`). -/
structure LightDevice where
  device_type : DeviceType
  is_dimmable : Bool
  is_variable_color_temp : Bool
  is_color : Bool
  is_on : Bool
  brightness : Nat
  hsv : HSV
  color_temp : Nat
  deriving Repr, DecidableEq

/-- Mutable state of a `Light` module instance: the bound device and the
cached `_light_state` recomputed by `_post_update_hook`. -/
structure LightModule where
  device : LightDevice
  light_state : LightState
  deriving Repr, DecidableEq

/-- `KasaException` carrying its message. -/
inductive KasaError
  | msg (s : String)
  deriving Repr, DecidableEq

/-- Requests a `Light` setter hands to the device / bulb (external
collaborators performing the network round trip). -/
inductive LightCommand
  | turnOff (transition : Option Nat)
  | turnOn (transition : Option Nat)
  | setDimmerTransition (brightness : Nat) (transition : Nat)
  | setLightState (state_dict : List (String × Nat)) (transition : Option Nat)
  | setHSV (hue : Nat) (saturation : Nat) (value : Option Nat) (transition : Option Nat)
  | setColorTemp (temp : Nat) (brightness : Option Nat) (transition : Option Nat)
  deriving Repr, DecidableEq

/-- Python dict lookup on an association list. -/
def dictGet (d : List (String × Nat)) (k : String) : Option Nat :=
  (d.find? (fun p => p.1 = k)).map Prod.snd

/-- Python `k in d`. -/
def dictContains (d : List (String × Nat)) (k : String) : Bool :=
  d.any (fun p => p.1 = k)

/-- Python `del d[k]` / `d.pop(k, None)`. -/
def dictErase (d : List (String × Nat)) (k : String) : List (String × Nat) :=
  d.filter (fun p => p.1 ≠ k)

/-- Python `d[k] = v`. -/
def dictSet (d : List (String × Nat)) (k : String) (v : Nat) : List (String × Nat) :=
  dictErase d k ++ [(k, v)]

/-- Python `int(bool)`. -/
def boolToNat : Bool → Nat
  | false => 0
  | true => 1

/-- One dataclass field as a dict entry, dropped when `None`. -/
def optEntry {α : Type} (k : String) (f : α → Nat) (o : Option α) :
    List (String × Nat) :=
  match o with
  | some v => [(k, f v)]
  | none => []

/-- `dataclasses.asdict(state)` followed by the source's comprehension
dropping `None` values. -/
def asdictFiltered (s : LightState) : List (String × Nat) :=
  optEntry "light_on" boolToNat s.light_on
  ++ optEntry "brightness" id s.brightness
  ++ optEntry "hue" id s.hue
  ++ optEntry "saturation" id s.saturation
  ++ optEntry "color_temp" id s.color_temp
  ++ optEntry "transition" id s.transition

namespace Light

/-- `Light._get_bulb_device`: the device itself when its type is Bulb or
LightStrip, else `None` (a Dimmer). -/
def get_bulb_device (d : LightDevice) : Option LightDevice :=
  if d.device_type = DeviceType.Bulb ∨ d.device_type = DeviceType.LightStrip then
    some d
  else
    none

/-- `Light.query`: brightness is contained in the main device info
response, so the module contributes an empty fragment. A Python method
on a mutable `self` is embedded as a state transformer. -/
def query (m : LightModule) : List (String × Val) × LightModule :=
  ([], m)

/-- `Light.brightness` property: reads `self._device._brightness`. -/
def brightness (m : LightModule) : Nat × LightModule :=
  (m.device.brightness, m)

/-- `Light.hsv` property: raises unless the device is a color bulb. -/
def hsvProp (d : LightDevice) : Except KasaError HSV :=
  match get_bulb_device d with
  | none => .error (.msg "Light does not support color.")
  | some bulb =>
    if !bulb.is_color then .error (.msg "Light does not support color.")
    else .ok bulb.hsv

/-- `Light.hsv` as a state transformer on the module. -/
def hsv (m : LightModule) : Except KasaError HSV × LightModule :=
  (hsvProp m.device, m)

/-- `Light.set_hsv`: raises unless the device is a color bulb, else
delegates to `bulb._set_hsv` (external network call). -/
def set_hsv (m : LightModule) (hue saturation : Nat) (value : Option Nat := none)
    (transition : Option Nat := none) :
    Except KasaError LightCommand × LightModule :=
  (match get_bulb_device m.device with
   | none => .error (.msg "Light does not support color.")
   | some bulb =>
     if !bulb.is_color then .error (.msg "Light does not support color.")
     else .ok (.setHSV hue saturation value transition), m)

/-- `Light.color_temp` property: raises unless the device is a bulb with
variable color temperature. -/
def colorTempProp (d : LightDevice) : Except KasaError Nat :=
  match get_bulb_device d with
  | none => .error (.msg "Light does not support colortemp.")
  | some bulb =>
    if !bulb.is_variable_color_temp then .error (.msg "Light does not support colortemp.")
    else .ok bulb.color_temp

/-- `Light.color_temp` as a state transformer on the module. -/
def color_temp (m : LightModule) : Except KasaError Nat × LightModule :=
  (colorTempProp m.device, m)

/-- `Light.set_color_temp`: raises unless the device is a bulb with
variable color temperature, else delegates to `bulb._set_color_temp`. -/
def set_color_temp (m : LightModule) (temp : Nat) (brightness : Option Nat := none)
    (transition : Option Nat := none) :
    Except KasaError LightCommand × LightModule :=
  (match get_bulb_device m.device with
   | none => .error (.msg "Light does not support colortemp.")
   | some bulb =>
     if !bulb.is_variable_color_temp then .error (.msg "Light does not support colortemp.")
     else .ok (.setColorTemp temp brightness transition), m)

/-- The source line `1 if state.light_on is None else int(state.light_on)`. -/
def onOffOfLightOn : Option Bool → Nat
  | none => 1
  | some b => boolToNat b

/-- The bulb request dict built by `Light.set_state`, statement by
statement: the `asdict` comprehension dropping `None`s, the `transition`
deletion, the initial `on_off` assignment, the brightness-0
normalization (or `on_off` default), and the final `light_on` pop. -/
def bulbStateDict (state : LightState) : List (String × Nat) :=
  let state_dict := asdictFiltered state
  let state_dict := if dictContains state_dict "transition" then
      dictErase state_dict "transition" else state_dict
  let state_dict := dictSet state_dict "on_off" (onOffOfLightOn state.light_on)
  let state_dict :=
    if dictGet state_dict "brightness" = some 0 then
      dictErase (dictSet state_dict "on_off" 0) "brightness"
    else
      match state.light_on with
      | none => dictSet state_dict "on_off" 1
      | some b => dictSet state_dict "on_off" (boolToNat b)
  dictErase state_dict "light_on"

/-- `Light.set_state`: normalizes the requested `LightState` into the
command handed to the device, following the source branch by branch
(dimmer branch first, then the bulb request-dict construction). -/
def set_state (m : LightModule) (state : LightState) : LightCommand × LightModule :=
  (match get_bulb_device m.device with
   | none =>
     if state.brightness = some 0 ∨ state.light_on = some false then
       .turnOff state.transition
     else
       match state.brightness with
       | some b =>
         if b ≠ 0 then .setDimmerTransition b (state.transition.getD 0)
         else .turnOn state.transition
       | none => .turnOn state.transition
   | some _bulb =>
     .setLightState (bulbStateDict state) state.transition, m)

/-- `Light.set_brightness`: builds a `LightState` carrying only the
brightness and transition and hands it to `set_state`. -/
def set_brightness (m : LightModule) (brightness : Nat)
    (transition : Option Nat := none) : LightCommand × LightModule :=
  set_state m { brightness := some brightness, transition := transition }

/-- `Light.state` property: returns the cached `_light_state`. -/
def state (m : LightModule) : LightState × LightModule :=
  (m.light_state, m)

/-- `Light._post_update_hook`: recomputes `_light_state` from the
device's freshly dispatched cached state. `self.hsv` / `self.color_temp`
may raise, so the hook is `Except`-valued. -/
def post_update_hook (m : LightModule) : Except KasaError LightModule := do
  let device := m.device
  if device.is_on = false then
    return { m with light_state := { light_on := some false } }
  else
    let st : LightState := { light_on := some true }
    let st := if device.is_dimmable then
        { st with brightness := some (Light.brightness m).1 } else st
    let st ← if device.is_color then do
        let hsv ← (Light.hsv m).1
        pure { st with hue := some hsv.hue, saturation := some hsv.saturation }
      else pure st
    let st ← if device.is_variable_color_temp then do
        let ct ← (Light.color_temp m).1
        pure { st with color_temp := some ct }
      else pure st
    return { m with light_state := st }

end Light

/-! ## MotionSensor module (kasa/smart/modules/motionsensor.py) -/

/-- The parent device a `MotionSensor` is bound to: its `sys_info`
mapping (the slice the module reads is boolean-valued). -/
structure MSDevice where
  sys_info : List (String × Bool)
  deriving Repr, DecidableEq

/-- State of a `MotionSensor` module instance. -/
structure MotionSensorModule where
  device : MSDevice
  deriving Repr, DecidableEq

namespace MotionSensor

/-- `MotionSensor.REQUIRED_COMPONENT = None`. -/
def REQUIRED_COMPONENT : Option String := none

/-- `MotionSensor.REQUIRED_KEY_ON_PARENT = "detected"`. -/
def REQUIRED_KEY_ON_PARENT : Option String := some "detected"

/-- `MotionSensor.query`: returns the empty dict. -/
def query (m : MotionSensorModule) : List (String × Val) × MotionSensorModule :=
  ([], m)

/-- `MotionSensor.motion_detected` property:
`self._device.sys_info["detected"]`; a missing key is Python `KeyError`,
modelled as `none`. -/
def motion_detected (m : MotionSensorModule) : Option Bool × MotionSensorModule :=
  ((m.device.sys_info.find? (fun p => p.1 = "detected")).map Prod.snd, m)

end MotionSensor

/-! ## SMART-family module admission

The admission step itself (`SmartDevice._initialize_modules`) is not part
of the source excerpt; only its client declarations (such as
`MotionSensor.REQUIRED_KEY_ON_PARENT`) are. It is therefore modelled from
the specification. -/

/-- Class-level declaration of a structured-family module: its required
component and optional required key on the parent's data. -/
structure SmartModuleDef where
  name : String
  required_component : Option String
  required_key_on_parent : Option String
  deriving Repr, DecidableEq

/-- An instantiated structured-family module: its defining declaration,
its registered feature ids, and how many times `_initialize_features`
ran on it. -/
structure SmartModuleInstance where
  module_def : SmartModuleDef
  features : List String
  initialize_features_runs : Nat
  deriving Repr, DecidableEq

/-- Modelled from the spec: structured-family admission — "module
applicability is decided dynamically from a negotiated list of named
components"; a module "declares a required component name (and
optionally a required key that must appear in a parent module's data)".
The source excerpt holds only the declarations, not the admission code. -/
def moduleAdmitted (components : List String) (parent_keys : List String)
    (m : SmartModuleDef) : Bool :=
  (match m.required_component with
   | some c => components.contains c
   | none => true)
  && (match m.required_key_on_parent with
      | some k => parent_keys.contains k
      | none => true)

/-- Modelled from the spec: "modules whose required component/key is
absent are not instantiated at all (not merely hidden)"; an admitted
module has `_initialize_features` "invoked once, after construction".
The negotiated component list and the parent's data keys are inputs;
`featuresOf` is the module's one-time feature initialization. -/
def initialize_modules (defs : List SmartModuleDef) (components : List String)
    (parent_keys : List String) (featuresOf : SmartModuleDef → List String) :
    List SmartModuleInstance :=
  defs.filterMap fun m =>
    if moduleAdmitted components parent_keys m then
      some { module_def := m, features := featuresOf m,
             initialize_features_runs := 1 }
    else
      none

/-- The `MotionSensor` declaration from the source, as a
`SmartModuleDef`. -/
def motionSensorDef : SmartModuleDef :=
  { name := "MotionSensor",
    required_component := MotionSensor.REQUIRED_COMPONENT,
    required_key_on_parent := MotionSensor.REQUIRED_KEY_ON_PARENT }

/-! ## Device refresh-cycle driver

The Collecting → Fetching → Dispatching → Finalizing driver is not part
of the source excerpt; it is modelled from the specification (spec §4.3
and §5). -/

/-- A transport failure or cancellation during the Fetching step. -/
abbrev TransportError := String

/-- A raw per-cycle response: string keys to opaque values. -/
abbrev Response := List (String × Val)

/-- One active module as seen by the lifecycle driver: the response keys
it declared needing, its cached slice of the last response, and the
derived state its post-update hook recomputed from that cache. -/
structure CycleModule where
  name : String
  needs : List String
  cache : Response
  derived : Response
  deriving Repr, DecidableEq

/-- The registry of active modules for one physical device. -/
structure DeviceRegistry where
  modules : List CycleModule
  deriving Repr, DecidableEq

/-- Modelled from the spec: one refresh cycle after the Fetching round
trip — "Dispatching (route raw response sections back to each module by
the module's declared data needs) → Finalizing (invoke every module's
post-update hook)"; "if the Fetching step fails or is cancelled,
Dispatching and Finalizing are skipped entirely for that cycle — modules
retain their last-known-good state". The Fetching outcome is the
`Except`-valued input. -/
def updateCycle (d : DeviceRegistry) (fetched : Except TransportError Response) :
    DeviceRegistry × Except TransportError Unit :=
  match fetched with
  | .error e => (d, .error e)
  | .ok response =>
    let dispatched := d.modules.map fun m =>
      { m with cache := response.filter (fun p => m.needs.contains p.1) }
    let finalized := dispatched.map fun m => { m with derived := m.cache }
    ({ modules := finalized }, .ok ())

/-! ## Concrete example instances -/

/-- A concrete `EnergyState` with distinct attribute values. -/
def energyExampleState : EnergyState :=
  ⟨1, 2, 3, 4, 5, 6, 7, 8, 9, 10, 11, 12, 13, 14⟩

/-- A concrete full-featured color bulb device. -/
def bulbExampleDevice : LightDevice :=
  { device_type := DeviceType.Bulb, is_dimmable := true,
    is_variable_color_temp := true, is_color := true, is_on := true,
    brightness := 55, hsv := ⟨10, 20, 30⟩, color_temp := 2700 }

/-- A concrete dimmer device (no color, no color temperature). -/
def dimmerExampleDevice : LightDevice :=
  { device_type := DeviceType.Dimmer, is_dimmable := true,
    is_variable_color_temp := false, is_color := false, is_on := true,
    brightness := 55, hsv := ⟨0, 0, 0⟩, color_temp := 0 }

/-- A `Light` module bound to the example bulb. -/
def bulbExampleModule : LightModule :=
  { device := bulbExampleDevice, light_state := {} }

/-- A `Light` module bound to the example dimmer. -/
def dimmerExampleModule : LightModule :=
  { device := dimmerExampleDevice, light_state := {} }

/-- A `MotionSensor` module whose parent reports `detected`. -/
def msExampleModule : MotionSensorModule :=
  { device := { sys_info := [("detected", true)] } }

/-- A concrete feature-initialization function for admission examples. -/
def msFeatures : SmartModuleDef → List String :=
  fun _ => ["motion_detected"]

end Kasa

namespace Kasa

/-! ## Association-list dictionary lemmas (shared helpers) -/

theorem dictGet_nil (k : String) : dictGet [] k = none := rfl

theorem dictGet_cons_self (k : String) (v : Nat) (d : List (String × Nat)) :
    dictGet ((k, v) :: d) k = some v := by
  simp [dictGet, List.find?_cons_of_pos]

theorem dictGet_cons_ne {k₁ k₂ : String} (v : Nat) (d : List (String × Nat))
    (h : k₁ ≠ k₂) : dictGet ((k₁, v) :: d) k₂ = dictGet d k₂ := by
  simp [dictGet, List.find?_cons_of_neg, h]

theorem dictGet_append (a b : List (String × Nat)) (k : String) :
    dictGet (a ++ b) k = (dictGet a k).or (dictGet b k) := by
  simp [dictGet, List.find?_append]
  cases List.find? (fun p => decide (p.1 = k)) a <;> simp [Option.or]

theorem dictContains_append (a b : List (String × Nat)) (k : String) :
    dictContains (a ++ b) k = (dictContains a k || dictContains b k) := by
  simp [dictContains, List.any_append]

theorem dictGet_dictErase_self (d : List (String × Nat)) (k : String) :
    dictGet (dictErase d k) k = none := by
  rw [dictGet, Option.map_eq_none', List.find?_eq_none]
  intro p hp
  have hmem := List.of_mem_filter hp
  simpa using hmem

theorem dictGet_dictErase_ne {k k' : String} (d : List (String × Nat))
    (h : k' ≠ k) : dictGet (dictErase d k) k' = dictGet d k' := by
  induction d with
  | nil => rfl
  | cons p d ih =>
    obtain ⟨p1, p2⟩ := p
    by_cases hp : p1 = k
    · have hne : p1 ≠ k' := by rw [hp]; exact fun hh => h hh.symm
      have hcons : dictErase ((p1, p2) :: d) k = dictErase d k := by
        simp [dictErase, List.filter_cons, hp]
      rw [hcons, ih, dictGet_cons_ne p2 d hne]
    · have hcons : dictErase ((p1, p2) :: d) k = (p1, p2) :: dictErase d k := by
        simp [dictErase, List.filter_cons, hp]
      rw [hcons]
      by_cases hk' : p1 = k'
      · subst hk'
        rw [dictGet_cons_self, dictGet_cons_self]
      · rw [dictGet_cons_ne p2 _ hk', dictGet_cons_ne p2 _ hk', ih]

theorem dictContains_eq_isSome (d : List (String × Nat)) (k : String) :
    dictContains d k = (dictGet d k).isSome := by
  induction d with
  | nil => rfl
  | cons p d ih =>
    obtain ⟨p1, p2⟩ := p
    by_cases hp : p1 = k
    · subst hp
      rw [dictGet_cons_self]
      simp [dictContains, List.any_cons]
    · rw [dictGet_cons_ne p2 d hp]
      simp only [dictContains, List.any_cons] at ih ⊢
      simp [hp, ih]

theorem dictContains_dictErase_self (d : List (String × Nat)) (k : String) :
    dictContains (dictErase d k) k = false := by
  rw [dictContains_eq_isSome, dictGet_dictErase_self]
  rfl

theorem dictContains_dictErase_ne {k k' : String} (d : List (String × Nat))
    (h : k' ≠ k) : dictContains (dictErase d k) k' = dictContains d k' := by
  rw [dictContains_eq_isSome, dictContains_eq_isSome, dictGet_dictErase_ne d h]

theorem dictGet_dictSet_self (d : List (String × Nat)) (k : String) (v : Nat) :
    dictGet (dictSet d k v) k = some v := by
  rw [dictSet, dictGet_append, dictGet_dictErase_self, dictGet_cons_self]
  rfl

theorem dictGet_dictSet_ne {k k' : String} (d : List (String × Nat)) (v : Nat)
    (h : k' ≠ k) : dictGet (dictSet d k v) k' = dictGet d k' := by
  rw [dictSet, dictGet_append, dictGet_dictErase_ne d h,
      dictGet_cons_ne v [] (fun hh => h hh.symm)]
  cases dictGet d k' <;> rfl

theorem dictContains_dictSet_ne {k k' : String} (d : List (String × Nat)) (v : Nat)
    (h : k' ≠ k) : dictContains (dictSet d k v) k' = dictContains d k' := by
  rw [dictContains_eq_isSome, dictContains_eq_isSome, dictGet_dictSet_ne d v h]

theorem dictGet_optEntry_self {α : Type} (k : String) (f : α → Nat) (o : Option α) :
    dictGet (optEntry k f o) k = o.map f := by
  cases o with
  | none => rfl
  | some v => exact dictGet_cons_self k (f v) []

theorem dictGet_optEntry_ne {α : Type} {k k' : String} (f : α → Nat) (o : Option α)
    (h : k ≠ k') : dictGet (optEntry k f o) k' = none := by
  cases o with
  | none => rfl
  | some v => rw [optEntry, dictGet_cons_ne (f v) [] h]; rfl

theorem asdict_get_brightness (st : LightState) :
    dictGet (asdictFiltered st) "brightness" = st.brightness := by
  rw [asdictFiltered, dictGet_append, dictGet_append, dictGet_append,
      dictGet_append, dictGet_append,
      dictGet_optEntry_ne boolToNat st.light_on (by decide),
      dictGet_optEntry_self "brightness" id st.brightness,
      dictGet_optEntry_ne id st.hue (by decide),
      dictGet_optEntry_ne id st.saturation (by decide),
      dictGet_optEntry_ne id st.color_temp (by decide),
      dictGet_optEntry_ne id st.transition (by decide)]
  cases st.brightness <;> rfl

theorem get_bulb_device_some {d b : LightDevice}
    (h : Light.get_bulb_device d = some b) : b = d := by
  rw [Light.get_bulb_device] at h
  split at h
  · exact (Option.some.inj h).symm
  · cases h

theorem bulbStateDict_no_light_on (st : LightState) :
    dictContains (Light.bulbStateDict st) "light_on" = false := by
  simp only [Light.bulbStateDict]
  exact dictContains_dictErase_self _ _

theorem bulbStateDict_no_transition (st : LightState) :
    dictContains (Light.bulbStateDict st) "transition" = false := by
  have tr_lo : ("transition" : String) ≠ "light_on" := by decide
  have tr_br : ("transition" : String) ≠ "brightness" := by decide
  have tr_oo : ("transition" : String) ≠ "on_off" := by decide
  simp only [Light.bulbStateDict]
  rw [dictContains_dictErase_ne _ tr_lo]
  split
  · split
    · rw [dictContains_dictErase_ne _ tr_br, dictContains_dictSet_ne _ _ tr_oo,
          dictContains_dictSet_ne _ _ tr_oo]
      exact dictContains_dictErase_self _ _
    · split <;>
      · rw [dictContains_dictSet_ne _ _ tr_oo, dictContains_dictSet_ne _ _ tr_oo]
        exact dictContains_dictErase_self _ _
  · next h =>
    split
    · rw [dictContains_dictErase_ne _ tr_br, dictContains_dictSet_ne _ _ tr_oo,
          dictContains_dictSet_ne _ _ tr_oo]
      simpa using h
    · split <;>
      · rw [dictContains_dictSet_ne _ _ tr_oo, dictContains_dictSet_ne _ _ tr_oo]
        simpa using h

theorem bulbStateDict_brightness_zero (st : LightState)
    (h : st.brightness = some 0) :
    dictGet (Light.bulbStateDict st) "on_off" = some 0
    ∧ dictContains (Light.bulbStateDict st) "brightness" = false := by
  have br_tr : ("brightness" : String) ≠ "transition" := by decide
  have br_oo : ("brightness" : String) ≠ "on_off" := by decide
  have br_lo : ("brightness" : String) ≠ "light_on" := by decide
  have oo_lo : ("on_off" : String) ≠ "light_on" := by decide
  have oo_br : ("on_off" : String) ≠ "brightness" := by decide
  simp only [Light.bulbStateDict]
  have hD1 : dictGet (if dictContains (asdictFiltered st) "transition" then
      dictErase (asdictFiltered st) "transition" else asdictFiltered st)
        "brightness" = some 0 := by
    split
    · rw [dictGet_dictErase_ne _ br_tr, asdict_get_brightness, h]
    · rw [asdict_get_brightness, h]
  have hD2 : dictGet (dictSet (if dictContains (asdictFiltered st) "transition" then
      dictErase (asdictFiltered st) "transition" else asdictFiltered st)
        "on_off" (Light.onOffOfLightOn st.light_on)) "brightness" = some 0 := by
    rw [dictGet_dictSet_ne _ _ br_oo, hD1]
  rw [if_pos hD2]
  constructor
  · rw [dictGet_dictErase_ne _ oo_lo, dictGet_dictErase_ne _ oo_br,
        dictGet_dictSet_self]
  · rw [dictContains_dictErase_ne _ br_lo, dictContains_dictErase_self]

theorem bulbStateDict_default_on (st : LightState) (hlo : st.light_on = none)
    (hbr : st.brightness ≠ some 0) :
    dictGet (Light.bulbStateDict st) "on_off" = some 1 := by
  have br_tr : ("brightness" : String) ≠ "transition" := by decide
  have br_oo : ("brightness" : String) ≠ "on_off" := by decide
  have oo_lo : ("on_off" : String) ≠ "light_on" := by decide
  simp only [Light.bulbStateDict, hlo]
  have hD1 : dictGet (if dictContains (asdictFiltered st) "transition" then
      dictErase (asdictFiltered st) "transition" else asdictFiltered st)
        "brightness" = st.brightness := by
    split
    · rw [dictGet_dictErase_ne _ br_tr, asdict_get_brightness]
    · rw [asdict_get_brightness]
  have hD2 : dictGet (dictSet (if dictContains (asdictFiltered st) "transition" then
      dictErase (asdictFiltered st) "transition" else asdictFiltered st)
        "on_off" (Light.onOffOfLightOn none)) "brightness" ≠ some 0 := by
    rw [dictGet_dictSet_ne _ _ br_oo, hD1]
    exact hbr
  rw [if_neg hD2, dictGet_dictErase_ne _ oo_lo, dictGet_dictSet_self]

/-! ## Claim theorems -/

/-- C1: for every pair in `Energy._deprecated_attributes`, accessing the
deprecated name returns exactly the value of the mapped current name, it
succeeds rather than raising, emits exactly one `DeprecationWarning` on
that access, while accessing the current name emits none. -/
theorem energy_deprecated_alias (s : EnergyState) (old cur : String)
    (h : (old, cur) ∈ Energy.deprecated_attributes) :
    (Energy.getattrE s old).1 = (Energy.getattrE s cur).1
    ∧ (Energy.getattrE s old).1.isSome = true
    ∧ (Energy.getattrE s old).2 = 1
    ∧ (Energy.getattrE s cur).2 = 0 := by
  simp only [Energy.deprecated_attributes, List.mem_cons, List.mem_singleton,
    Prod.mk.injEq, List.not_mem_nil, or_false] at h
  rcases h with ⟨rfl, rfl⟩ | ⟨rfl, rfl⟩ | ⟨rfl, rfl⟩ | ⟨rfl, rfl⟩ | ⟨rfl, rfl⟩ <;>
    exact ⟨rfl, rfl, rfl, rfl⟩

/-- C1 witness: the `emeter_today` alias at a concrete state. -/
theorem energy_deprecated_alias_witness :
    (Energy.getattrE energyExampleState "emeter_today").1
        = (Energy.getattrE energyExampleState "consumption_today").1
    ∧ (Energy.getattrE energyExampleState "emeter_today").1.isSome = true
    ∧ (Energy.getattrE energyExampleState "emeter_today").2 = 1
    ∧ (Energy.getattrE energyExampleState "consumption_today").2 = 0 :=
  energy_deprecated_alias energyExampleState "emeter_today" "consumption_today"
    (by decide)

/-- C9: accessing a name that is neither a defined attribute of `Energy`
nor a key of `_deprecated_attributes` fails with `AttributeError`
(modelled as `none`) and emits no warning. -/
theorem energy_unknown_attribute_error (s : EnergyState) (n : String)
    (h1 : Energy.definedAttr s n = none) (h2 : Energy.deprecatedLookup n = none) :
    Energy.getattrE s n = (none, 0) := by
  rw [Energy.getattrE]
  show Energy.getattrFuel s (1 + 1) n = (none, 0)
  rw [Energy.getattrFuel, h1, h2]

/-- C9 witness: the unknown name `foo` at a concrete state. -/
theorem energy_unknown_attribute_error_witness :
    Energy.getattrE energyExampleState "foo" = (none, 0) :=
  energy_unknown_attribute_error energyExampleState "foo" rfl rfl

/-- C6: `Energy._initialize_features` always registers
`current_consumption`, `consumption_today` and `consumption_this_month`;
it registers `consumption_total` iff `has_total_consumption`, and
`voltage` and `current` iff `has_voltage_current`. -/
theorem energy_feature_registration (ht hv : Bool) :
    "current_consumption" ∈ Energy.featureIds ht hv
    ∧ "consumption_today" ∈ Energy.featureIds ht hv
    ∧ "consumption_this_month" ∈ Energy.featureIds ht hv
    ∧ ("consumption_total" ∈ Energy.featureIds ht hv ↔ ht = true)
    ∧ ("voltage" ∈ Energy.featureIds ht hv ↔ hv = true)
    ∧ ("current" ∈ Energy.featureIds ht hv ↔ hv = true) := by
  cases ht <;> cases hv <;> decide

/-- C7: reading a Feature getter neither mutates module state nor
depends on a Feature-local cache: `Light.brightness` and
`MotionSensor.motion_detected` return the module unchanged, read
directly from the module's cached device state, and two consecutive
reads return equal values. -/
theorem feature_read_pure (m : LightModule) (ms : MotionSensorModule) :
    (Light.brightness m).2 = m
    ∧ (Light.brightness m).1 = m.device.brightness
    ∧ (Light.brightness (Light.brightness m).2).1 = (Light.brightness m).1
    ∧ (MotionSensor.motion_detected ms).2 = ms
    ∧ (MotionSensor.motion_detected (MotionSensor.motion_detected ms).2).1
        = (MotionSensor.motion_detected ms).1 :=
  ⟨rfl, rfl, rfl, rfl, rfl⟩

/-- C8: `Light.query` and `MotionSensor.query` return the empty dict for
every module state, leave the module state unchanged, and are idempotent
within a cycle. -/
theorem query_empty_and_pure (m : LightModule) (ms : MotionSensorModule) :
    Light.query m = ([], m)
    ∧ MotionSensor.query ms = ([], ms)
    ∧ Light.query (Light.query m).2 = Light.query m
    ∧ MotionSensor.query (MotionSensor.query ms).2 = MotionSensor.query ms :=
  ⟨rfl, rfl, rfl, rfl⟩

/-- C4: if the Fetching step of a refresh cycle fails, Dispatching and
Finalizing are skipped and every module's cached state is identical to
its pre-cycle state; the failure propagates to the caller. -/
theorem cycle_atomic_on_fetch_failure (d : DeviceRegistry) (e : TransportError) :
    updateCycle d (Except.error e) = (d, Except.error e)
    ∧ (updateCycle d (Except.error e)).1.modules = d.modules :=
  ⟨rfl, rfl⟩

/-- C2: SMART-family admission is a hard admission-control step: when
the `MotionSensor` required key `detected` is absent from the parent's
data, no instance of it appears in the device's module collection at
all; when present, it is instantiated with `_initialize_features` run
exactly once. -/
theorem smart_admission_gating (defs : List SmartModuleDef)
    (components parent_keys : List String)
    (featuresOf : SmartModuleDef → List String) :
    (parent_keys.contains "detected" = false →
      ∀ inst ∈ initialize_modules defs components parent_keys featuresOf,
        inst.module_def ≠ motionSensorDef)
    ∧ (parent_keys.contains "detected" = true → motionSensorDef ∈ defs →
      ∃ inst ∈ initialize_modules defs components parent_keys featuresOf,
        inst.module_def = motionSensorDef
        ∧ inst.features = featuresOf motionSensorDef
        ∧ inst.initialize_features_runs = 1) := by
  constructor
  · intro hno inst hinst hdef
    rw [initialize_modules, List.mem_filterMap] at hinst
    obtain ⟨a, _, hif⟩ := hinst
    split at hif
    case isTrue hadm =>
      have ha : a = motionSensorDef := by
        rw [← hdef, ← Option.some.inj hif]
      rw [ha, moduleAdmitted, motionSensorDef, MotionSensor.REQUIRED_COMPONENT,
          MotionSensor.REQUIRED_KEY_ON_PARENT] at hadm
      simp at hadm hno
      exact hno hadm
    case isFalse => cases hif
  · intro hyes hmem
    have hadm : moduleAdmitted components parent_keys motionSensorDef = true := by
      rw [moduleAdmitted, motionSensorDef, MotionSensor.REQUIRED_COMPONENT,
          MotionSensor.REQUIRED_KEY_ON_PARENT]
      simp at hyes ⊢
      exact hyes
    refine ⟨{ module_def := motionSensorDef
              features := featuresOf motionSensorDef
              initialize_features_runs := 1 }, ?_, rfl, rfl, rfl⟩
    rw [initialize_modules, List.mem_filterMap]
    exact ⟨motionSensorDef, hmem, by rw [if_pos hadm]⟩

/-- C2 witness: with `detected` absent the admitted collection is empty
and the would-be instance is not in it; with `detected` present the
instance is admitted with its features initialized once. -/
theorem smart_admission_gating_witness :
    ((⟨motionSensorDef, msFeatures motionSensorDef, 1⟩ : SmartModuleInstance)
        ∉ initialize_modules [motionSensorDef] [] [] msFeatures)
    ∧ ∃ inst ∈ initialize_modules [motionSensorDef] [] ["detected"] msFeatures,
        inst.module_def = motionSensorDef
        ∧ inst.features = msFeatures motionSensorDef
        ∧ inst.initialize_features_runs = 1 := by
  constructor
  · intro hmem
    exact (smart_admission_gating [motionSensorDef] [] [] msFeatures).1
      rfl _ hmem rfl
  · exact (smart_admission_gating [motionSensorDef] [] ["detected"] msFeatures).2
      rfl (List.mem_singleton.mpr rfl)

/-- C3: `Light.set_brightness` never changes the module's state before a
refresh: the brightness read and the cached `_light_state` are unchanged
after the call; the new value becomes observable only once
`_post_update_hook` recomputes `_light_state` from the device's
refreshed cached state. -/
theorem light_no_optimistic_update (m : LightModule) (v : Nat) (t : Option Nat)
    (d : LightDevice) (hon : d.is_on = true) (hdim : d.is_dimmable = true)
    (hcol : d.is_color = false) (hct : d.is_variable_color_temp = false) :
    (Light.set_brightness m v t).2 = m
    ∧ (Light.brightness (Light.set_brightness m v t).2).1 = (Light.brightness m).1
    ∧ (Light.state (Light.set_brightness m v t).2).1 = m.light_state
    ∧ Light.post_update_hook { m with device := d }
        = Except.ok { device := d
                      light_state := { light_on := some true
                                       brightness := some d.brightness } } := by
  refine ⟨rfl, rfl, rfl, ?_⟩
  rw [Light.post_update_hook]
  simp [hon, hdim, hcol, hct, Light.brightness]
  rfl

/-- C3 witness: setting brightness 80 on the example dimmer leaves state
untouched; the post-update hook then exposes the device-reported value. -/
theorem light_no_optimistic_update_witness :
    (Light.set_brightness dimmerExampleModule 80 none).2 = dimmerExampleModule
    ∧ (Light.brightness (Light.set_brightness dimmerExampleModule 80 none).2).1
        = (Light.brightness dimmerExampleModule).1
    ∧ (Light.state (Light.set_brightness dimmerExampleModule 80 none).2).1
        = dimmerExampleModule.light_state
    ∧ Light.post_update_hook
          { dimmerExampleModule with device := dimmerExampleDevice }
        = Except.ok { device := dimmerExampleDevice
                      light_state := { light_on := some true
                                       brightness := some dimmerExampleDevice.brightness } } :=
  light_no_optimistic_update dimmerExampleModule 80 none dimmerExampleDevice
    rfl rfl rfl rfl

/-- C5: reading `hsv` or calling `set_hsv` on a device that is not a
color bulb raises immediately; likewise `color_temp` and
`set_color_temp` on a device without variable color temperature; the
error is returned to the caller, never swallowed. -/
theorem light_color_capability_errors (m : LightModule)
    (hue saturation temp : Nat) (value bri tr : Option Nat) :
    (Light.get_bulb_device m.device = none ∨ m.device.is_color = false →
      (Light.hsv m).1 = Except.error (KasaError.msg "Light does not support color.")
      ∧ (Light.set_hsv m hue saturation value tr).1
          = Except.error (KasaError.msg "Light does not support color."))
    ∧ (Light.get_bulb_device m.device = none
        ∨ m.device.is_variable_color_temp = false →
      (Light.color_temp m).1
          = Except.error (KasaError.msg "Light does not support colortemp.")
      ∧ (Light.set_color_temp m temp bri tr).1
          = Except.error (KasaError.msg "Light does not support colortemp.")) := by
  constructor
  · intro h
    cases hb : Light.get_bulb_device m.device with
    | none =>
      constructor
      · rw [Light.hsv, Light.hsvProp, hb]
      · rw [Light.set_hsv, hb]
    | some bulb =>
      have hcol : m.device.is_color = false := by
        rcases h with h | h
        · rw [h] at hb; cases hb
        · exact h
      have hbd : bulb = m.device := get_bulb_device_some hb
      constructor
      · simp [Light.hsv, Light.hsvProp, hb, hbd, hcol]
      · simp [Light.set_hsv, hb, hbd, hcol]
  · intro h
    cases hb : Light.get_bulb_device m.device with
    | none =>
      constructor
      · rw [Light.color_temp, Light.colorTempProp, hb]
      · rw [Light.set_color_temp, hb]
    | some bulb =>
      have hct : m.device.is_variable_color_temp = false := by
        rcases h with h | h
        · rw [h] at hb; cases hb
        · exact h
      have hbd : bulb = m.device := get_bulb_device_some hb
      constructor
      · simp [Light.color_temp, Light.colorTempProp, hb, hbd, hct]
      · simp [Light.set_color_temp, hb, hbd, hct]

/-- C5 witness: the example dimmer (not a bulb-typed device) raises on
all four color/color-temperature operations. -/
theorem light_color_capability_errors_witness :
    ((Light.hsv dimmerExampleModule).1
        = Except.error (KasaError.msg "Light does not support color.")
      ∧ (Light.set_hsv dimmerExampleModule 1 2 none none).1
        = Except.error (KasaError.msg "Light does not support color."))
    ∧ ((Light.color_temp dimmerExampleModule).1
        = Except.error (KasaError.msg "Light does not support colortemp.")
      ∧ (Light.set_color_temp dimmerExampleModule 2700 none none).1
        = Except.error (KasaError.msg "Light does not support colortemp.")) :=
  ⟨(light_color_capability_errors dimmerExampleModule 1 2 2700 none none none).1
      (Or.inl (by decide)),
   (light_color_capability_errors dimmerExampleModule 1 2 2700 none none none).2
      (Or.inl (by decide))⟩

/-- C10 counterexample: on a bulb, for the request
`LightState(brightness=0)` — `light_on` unset — the dict sent to
`_set_light_state` is `[("on_off", 0)]`, whose `on_off` is 0 and not 1,
so the claim's unconditional "defaults `on_off` to 1 when `light_on` is
unset" is false at this input (the brightness-0 normalization wins). -/
theorem light_set_state_default_counterexample :
    (Light.set_state bulbExampleModule { brightness := some 0 }).1
        = LightCommand.setLightState [("on_off", 0)] none
    ∧ dictGet [("on_off", 0)] "on_off" ≠ some 1 := by
  exact ⟨by decide, by decide⟩

/-- C10 (amended): `Light.set_state` normalizes brightness 0 to a
power-off request. On a dimmer, brightness 0 or `light_on = False` turns
into `turn_off` with no brightness sent. On a bulb, the dict sent to
`_set_light_state` never contains `light_on` or `transition`; when the
requested brightness is 0 it has `on_off = 0` and no `brightness` key;
and it has `on_off = 1` when `light_on` is unset and the requested
brightness is not 0. -/
theorem light_set_state_normalization (m : LightModule) (st : LightState)
    (b : LightDevice) :
    (Light.get_bulb_device m.device = none →
      st.brightness = some 0 ∨ st.light_on = some false →
      (Light.set_state m st).1 = LightCommand.turnOff st.transition)
    ∧ (Light.get_bulb_device m.device = some b →
      ∃ dict, (Light.set_state m st).1
          = LightCommand.setLightState dict st.transition
        ∧ dictContains dict "light_on" = false
        ∧ dictContains dict "transition" = false
        ∧ (st.brightness = some 0 →
            dictGet dict "on_off" = some 0
            ∧ dictContains dict "brightness" = false)
        ∧ (st.light_on = none → st.brightness ≠ some 0 →
            dictGet dict "on_off" = some 1)) := by
  constructor
  · intro hb hcond
    simp only [Light.set_state, hb]
    rw [if_pos hcond]
  · intro hb
    simp only [Light.set_state, hb]
    exact ⟨Light.bulbStateDict st, rfl,
      bulbStateDict_no_light_on st,
      bulbStateDict_no_transition st,
      fun h => bulbStateDict_brightness_zero st h,
      fun hlo hbr => bulbStateDict_default_on st hlo hbr⟩

/-- C10 witness: brightness 0 turns the example dimmer off; on the
example bulb, brightness 0 yields `on_off = 0` with no `brightness` key,
and brightness 50 with `light_on` unset yields `on_off = 1`. -/
theorem light_set_state_normalization_witness :
    (Light.set_state dimmerExampleModule { brightness := some 0 }).1
        = LightCommand.turnOff none
    ∧ (∃ dict, (Light.set_state bulbExampleModule { brightness := some 0 }).1
          = LightCommand.setLightState dict none
        ∧ dictGet dict "on_off" = some 0
        ∧ dictContains dict "brightness" = false)
    ∧ (∃ dict, (Light.set_state bulbExampleModule { brightness := some 50 }).1
          = LightCommand.setLightState dict none
        ∧ dictGet dict "on_off" = some 1) := by
  refine ⟨?_, ?_, ?_⟩
  · exact (light_set_state_normalization dimmerExampleModule
      { brightness := some 0 } bulbExampleDevice).1 (by decide) (Or.inl rfl)
  · obtain ⟨dict, hcmd, _, _, hb0, _⟩ :=
      (light_set_state_normalization bulbExampleModule
        { brightness := some 0 } bulbExampleDevice).2 (by decide)
    exact ⟨dict, hcmd, (hb0 rfl).1, (hb0 rfl).2⟩
  · obtain ⟨dict, hcmd, _, _, _, hdef⟩ :=
      (light_set_state_normalization bulbExampleModule
        { brightness := some 50 } bulbExampleDevice).2 (by decide)
    exact ⟨dict, hcmd, hdef rfl (by decide)⟩

end Kasa
